import Mathlib

/-!
Shallow embedding of the webhook ingestion, idempotency and reconciliation
engine of the iFoundAnApple backend.

The definitions below are translated from:
  * `src/src/webhooks/webhooks.service.ts` (`WebhooksService.handlePaynetWebhook`,
    `processSuccessfulPayment`, `processFailedPayment`);
  * `src/src/payments/services/payment-reconciliation.service.ts`
    (`PaymentReconciliationService.retryFailedWebhooks`,
    `sendAdminAlertsForFailedWebhooks`);
  * `src/unnamed/part_011` (`PaynetProvider.verifyWebhookSignature`).

The Supabase store is modelled as explicit lists of rows (one list per
table); `insert` appends, `update ... eq(k, v)` maps over the matching
rows, `.single()` / `.maybeSingle()` is `List.find?`.  Timestamps are
naturals (milliseconds since the epoch), so `new Date().toISOString()`
becomes an explicit `now : Nat` parameter threaded through each call.
Transient storage failures (the `{ error }` results the TypeScript code
inspects) are modelled by a `Faults` record of booleans fixed for one
processing attempt: a `true` flag makes the corresponding write fail,
after which the embedding follows exactly the branch the source takes on
a non-null `error`.
-/

namespace IFA

/-- A JSON scalar, as found in webhook payload fields (`is_succeed` may
arrive as a boolean, a string, a number, …). -/
inductive JVal where
  | jbool (b : Bool)
  | jstr (s : String)
  | jnum (n : Int)
  | jnull
deriving DecidableEq, Repr

/-- The PAYNET webhook payload fields consumed by the core
(`webhooks.service.ts` header comment and body).  Absent fields are
`none` (JavaScript `undefined`). -/
structure Payload where
  reference_no : Option String
  is_succeed : Option JVal
  amount : Option Int
  authorization_code : Option String
  order_id : Option String
  xact_date : Option Nat
  comission : Option Int
  error_message : Option String
deriving DecidableEq, Repr

/-- JavaScript `a || b` for an optional number (`0` is falsy). -/
def jsOrNat (o : Option Nat) (d : Nat) : Nat :=
  match o with
  | some v => if v = 0 then d else v
  | none => d

/-- JavaScript `a || b` for an optional integer (`0` is falsy). -/
def jsOrInt (o : Option Int) (d : Int) : Int :=
  match o with
  | some v => if v = 0 then d else v
  | none => d

/-- JavaScript `a || b` for an optional string (`""` is falsy). -/
def jsOrStr (o : Option String) (d : String) : String :=
  match o with
  | some v => if v = "" then d else v
  | none => d

/-- `signature || null` when storing a webhook row. -/
def strOrNone (s : String) : Option String :=
  if s = "" then none else some s

inductive PaymentStatus where
  | pending
  | completed
  | failed
deriving DecidableEq, Repr

/-- `escrow_status` column of the `payments` table. -/
inductive EscrowStatus where
  | pending
  | held
  | released
deriving DecidableEq, Repr

/-- `status` column of the `escrow_accounts` table. -/
inductive EscrowAccountStatus where
  | held
  | released
  | rejected
deriving DecidableEq, Repr

/-- A row of the `payments` table (the columns the webhook core reads or
writes). -/
structure Payment where
  id : String
  payer_id : String
  receiver_id : Option String
  device_id : String
  payment_status : PaymentStatus
  escrow_status : EscrowStatus
  provider_payment_id : Option String
  provider_transaction_id : Option String
  authorization_code : Option String
  completed_at : Option Nat
  failed_at : Option Nat
  failure_reason : Option String
  payment_gateway_fee : Int
  total_amount : Int
  reward_amount : Int
  service_fee : Int
  cargo_fee : Int
  net_payout : Int
  updated_at : Option Nat
deriving DecidableEq, Repr

/-- A row of the `escrow_accounts` table. -/
structure EscrowRecord where
  payment_id : String
  device_id : String
  holder_user_id : String
  beneficiary_user_id : Option String
  total_amount : Int
  reward_amount : Int
  service_fee : Int
  gateway_fee : Int
  cargo_fee : Int
  net_payout : Int
  status : EscrowAccountStatus
  escrow_type : String
  auto_release_days : Nat
  currency : String
  held_at : Nat
deriving DecidableEq, Repr

/-- A row of the `webhook_storage` table (the idempotency ledger,
`part_015` schema). -/
structure WebhookRow where
  payment_id : String
  reference_no : String
  webhook_payload : Payload
  is_succeed : Bool
  received_at : Nat
  signature : Option String
  provider : String
  processed_at : Option Nat
  retry_count : Nat
  last_retry_at : Option Nat
  error_message : Option String
  updated_at : Option Nat
deriving DecidableEq, Repr

/-- A row of the `devices` table (columns touched by the webhook core). -/
structure Device where
  id : String
  serialNumber : String
  model : String
  device_role : String
  status : String
  updated_at : Option Nat
deriving DecidableEq, Repr

/-- A row of the `audit_logs` table. -/
structure AuditLog where
  event_type : String
  event_category : String
  event_action : String
  event_severity : String
  user_id : Option String
  resource_type : String
  resource_id : String
  created_at : Nat
deriving DecidableEq, Repr

/-- A row of the `notifications` table. -/
structure UserNotification where
  user_id : String
  message_key : String
  type : String
  is_read : Bool
deriving DecidableEq, Repr

/-- A row of the `admin_permissions` table. -/
structure AdminPerm where
  user_id : String
  is_active : Bool
deriving DecidableEq, Repr

/-- The durable store: one list of rows per Supabase table. -/
structure Store where
  webhook_storage : List WebhookRow
  payments : List Payment
  escrow_accounts : List EscrowRecord
  devices : List Device
  audit_logs : List AuditLog
  notifications : List UserNotification
  admin_permissions : List AdminPerm
deriving DecidableEq, Repr

/-- `update(...).eq(k, v)`: map the update over every matching row. -/
def updateWhere (p : α → Bool) (f : α → α) (l : List α) : List α :=
  l.map (fun x => if p x then f x else x)

/-- Which storage writes fail transiently during one processing attempt
(`true` = the Supabase call returns a non-null `error`). -/
structure Faults where
  ledgerWrite : Bool
  paymentUpdate : Bool
  escrowInsert : Bool
  deviceUpdate : Bool
  auditInsert : Bool
  notifInsert : Bool
  processedStamp : Bool
deriving DecidableEq, Repr

/-- The fault-free attempt: every storage write succeeds. -/
def noFaults : Faults :=
  ⟨false, false, false, false, false, false, false⟩

/-- `PaynetProvider.verifyWebhookSignature` (`src/unnamed/part_011`,
lines 411–422): the body logs a warning and returns `true`
unconditionally — verification is a stub. -/
def verifyWebhookSignature (_payload : Payload) (_signature _timestamp : String) : Bool :=
  true

/-- `webhooks.service.ts` line 83:
`payload.is_succeed === true || payload.is_succeed === 'true'`. -/
def computeIsSucceed (p : Payload) : Bool :=
  p.is_succeed == some (JVal.jbool true) || p.is_succeed == some (JVal.jstr "true")

/-- Errors `handlePaynetWebhook` can throw to its caller. -/
inductive IngestError where
  | invalidSignature
  | missingReferenceNo
  | processingFailed (msg : String)
deriving DecidableEq, Repr

deriving instance DecidableEq for Except

/-- The `escrow_accounts` row inserted by a successful completion
(`webhooks.service.ts` lines 250–270). -/
def mkEscrowRecord (payment : Payment) (now : Nat) : EscrowRecord :=
  { payment_id := payment.id,
    device_id := payment.device_id,
    holder_user_id := payment.payer_id,
    beneficiary_user_id := payment.receiver_id,
    total_amount := payment.total_amount,
    reward_amount := payment.reward_amount,
    service_fee := payment.service_fee,
    gateway_fee := payment.payment_gateway_fee,
    cargo_fee := payment.cargo_fee,
    net_payout := payment.net_payout,
    status := .held,
    escrow_type := "standard",
    auto_release_days := 30,
    currency := "TRY",
    held_at := now }

/-- The `payments`-table update applied on the success edge
(`webhooks.service.ts` lines 230–242); `payment` is the previously
fetched row (used for the `payment_gateway_fee` fallback). -/
def completedUpdate (wp : Payload) (now : Nat) (payment : Payment)
    (q : Payment) : Payment :=
  { q with
    payment_status := PaymentStatus.completed,
    escrow_status := EscrowStatus.held,
    provider_payment_id := wp.order_id,
    provider_transaction_id := wp.reference_no,
    authorization_code := wp.authorization_code,
    completed_at := some (jsOrNat wp.xact_date now),
    payment_gateway_fee := jsOrInt wp.comission payment.payment_gateway_fee,
    updated_at := some now }

/-- `WebhooksService.processSuccessfulPayment` (lines 220–393):
payments update, escrow insert and owner-device update throw on error;
the finder-device update, audit log and notifications are best-effort. -/
def processSuccessfulPayment (payment : Payment) (wp : Payload) (now : Nat)
    (f : Faults) (s : Store) : Store × Except String Unit :=
  -- 1. Update payments table (throws on error).
  if f.paymentUpdate then (s, .error "payment update failed")
  else
  let pays := updateWhere (fun q => q.id == payment.id)
    (completedUpdate wp now payment) s.payments
  let s1 : Store := { s with payments := pays }
  -- 2. Create escrow_accounts record (throws on error).
  if f.escrowInsert then (s1, .error "escrow insert failed")
  else
  let s2 : Store := { s1 with escrow_accounts := s1.escrow_accounts ++
    [mkEscrowRecord payment now] }
  -- 3. Update owner device status (throws on error).
  if f.deviceUpdate then (s2, .error "device update failed")
  else
  let devs := updateWhere (fun d => d.id == payment.device_id)
    (fun d => { d with status := "payment_completed", updated_at := some now }) s2.devices
  let s3 : Store := { s2 with devices := devs }
  -- 3.5. Update the matched finder device (errors are not thrown).
  let s4 : Store :=
    match s3.devices.find? (fun d => d.id == payment.device_id) with
    | none => s3
    | some od =>
      match s3.devices.find? (fun d =>
          d.serialNumber == od.serialNumber && d.model == od.model &&
          d.device_role == "finder") with
      | none => s3
      | some fd =>
        if f.deviceUpdate then s3
        else
          let fdevs := updateWhere (fun d => d.id == fd.id)
            (fun d => { d with status := "payment_completed", updated_at := some now })
            s3.devices
          { s3 with devices := fdevs }
  -- 4. Audit log (best-effort).
  let s5 : Store :=
    if f.auditInsert then s4
    else { s4 with audit_logs := s4.audit_logs ++
      [{ event_type := "payment_completed",
         event_category := "payment",
         event_action := "complete",
         event_severity := "info",
         user_id := some payment.payer_id,
         resource_type := "payment",
         resource_id := payment.id,
         created_at := now }] }
  -- 5. Notifications for payer and (when present) receiver (best-effort).
  let s6 : Store :=
    if f.notifInsert then s5
    else { s5 with notifications := s5.notifications ++
      [{ user_id := payment.payer_id,
         message_key := "payment_completed_owner",
         type := "success",
         is_read := false }] }
  let s7 : Store :=
    match payment.receiver_id with
    | none => s6
    | some rid =>
      if f.notifInsert then s6
      else { s6 with notifications := s6.notifications ++
        [{ user_id := rid,
           message_key := "payment_received_finder",
           type := "payment_success",
           is_read := false }] }
  (s7, .ok ())

/-- The `payments`-table update applied on the failure edge
(`webhooks.service.ts` lines 409–417). -/
def failedUpdate (wp : Payload) (now : Nat) (q : Payment) : Payment :=
  { q with
    payment_status := PaymentStatus.failed,
    failure_reason := some (jsOrStr wp.error_message "Payment failed"),
    failed_at := some now,
    updated_at := some now }

/-- `WebhooksService.processFailedPayment` (lines 399–494): the payments
update throws on error; the device reset, payer notification and audit
log are best-effort. -/
def processFailedPayment (payment : Payment) (wp : Payload) (now : Nat)
    (f : Faults) (s : Store) : Store × Except String Unit :=
  if f.paymentUpdate then (s, .error "payment update failed")
  else
  let pays := updateWhere (fun q => q.id == payment.id)
    (failedUpdate wp now) s.payments
  let s1 : Store := { s with payments := pays }
  let s2 : Store :=
    if f.deviceUpdate then s1
    else
      let devs := updateWhere (fun d => d.id == payment.device_id)
        (fun d => { d with status := "payment_pending", updated_at := some now }) s1.devices
      { s1 with devices := devs }
  let s3 : Store :=
    if f.notifInsert then s2
    else { s2 with notifications := s2.notifications ++
      [{ user_id := payment.payer_id,
         message_key := "payment_failed",
         type := "error",
         is_read := false }] }
  let s4 : Store :=
    if f.auditInsert then s3
    else { s3 with audit_logs := s3.audit_logs ++
      [{ event_type := "payment_failed",
         event_category := "payment",
         event_action := "fail",
         event_severity := "warning",
         user_id := some payment.payer_id,
         resource_type := "payment",
         resource_id := payment.id,
         created_at := now }] }
  (s4, .ok ())

/-- In-place overwrite of an existing unprocessed ledger row
(`webhooks.service.ts` lines 113–132); on a write error the code logs
and continues, leaving the row as it was. -/
def ledgerUpdate (r : String) (payload : Payload) (signature : String)
    (now : Nat) (f : Faults) (s : Store) : Store :=
  if f.ledgerWrite then s
  else
    let rows := updateWhere (fun x => x.reference_no == r)
      (fun x => { x with
        webhook_payload := payload,
        is_succeed := computeIsSucceed payload,
        received_at := now,
        signature := strOrNone signature,
        retry_count := 0 }) s.webhook_storage
    { s with webhook_storage := rows }

/-- The `webhookRecord` object built at `webhooks.service.ts`
lines 100–110 (`payment_id` is the same as `reference_no`). -/
def freshLedgerRow (r : String) (payload : Payload) (signature : String)
    (now : Nat) : WebhookRow :=
  { payment_id := r,
    reference_no := r,
    webhook_payload := payload,
    is_succeed := computeIsSucceed payload,
    received_at := now,
    signature := strOrNone signature,
    provider := "paynet",
    processed_at := none,
    retry_count := 0,
    last_retry_at := none,
    error_message := none,
    updated_at := none }

/-- Insert of a fresh ledger row (`webhooks.service.ts` lines 133–146);
on a write error the code logs and continues with no row. -/
def ledgerInsert (r : String) (payload : Payload) (signature : String)
    (now : Nat) (f : Faults) (s : Store) : Store :=
  if f.ledgerWrite then s
  else { s with webhook_storage := s.webhook_storage ++
    [freshLedgerRow r payload signature now] }

/-- Payment lookup and processing phase of `handlePaynetWebhook`
(lines 158–213): load the payment (`.single()`), dispatch on
`isSucceed`, stamp `processed_at` on success, or update the retry
bookkeeping and rethrow on failure.  A missing payment only logs an
error and returns. -/
def processPhase (r : String) (payload : Payload) (isSucceed : Bool)
    (now : Nat) (f : Faults) (s : Store) : Store × Except IngestError Unit :=
  match s.payments.find? (fun p => p.id == r) with
  | none => (s, .ok ())
  | some payment =>
    match (if isSucceed then processSuccessfulPayment payment payload now f s
           else processFailedPayment payment payload now f s) with
    | (s2, .ok _) =>
      -- Mark webhook as processed (the result of this update is not
      -- inspected by the source).
      let s3 : Store :=
        if f.processedStamp then s2
        else
          let rows := updateWhere (fun x => x.reference_no == r)
            (fun x => { x with processed_at := some now, updated_at := some now })
            s2.webhook_storage
          { s2 with webhook_storage := rows }
      (s3, .ok ())
    | (s2, .error msg) =>
      -- Read the current retry_count, then increment it.
      let cur : Nat :=
        ((s2.webhook_storage.find? (fun x => x.reference_no == r)).map
          (fun x => x.retry_count)).getD 0
      let rows := updateWhere (fun x => x.reference_no == r)
        (fun x => { x with
          retry_count := cur + 1,
          last_retry_at := some now,
          error_message := some msg,
          updated_at := some now }) s2.webhook_storage
      let s3 : Store := { s2 with webhook_storage := rows }
      (s3, .error (.processingFailed msg))

/-- Body of `handlePaynetWebhook` after the signature gate (lines 76–213):
reference check, database idempotency check, ledger upsert, processing. -/
def ingestBody (payload : Payload) (signature : String) (now : Nat)
    (f : Faults) (s : Store) : Store × Except IngestError Unit :=
  match payload.reference_no with
  | none => (s, .error .missingReferenceNo)
  | some r =>
    -- `if (!referenceNo)`: the empty string is falsy in JavaScript.
    if r == "" then (s, .error .missingReferenceNo)
    else
      match s.webhook_storage.find? (fun w => w.reference_no == r) with
      | some w =>
        if w.processed_at.isSome then (s, .ok ())
        else processPhase r payload (computeIsSucceed payload) now f
          (ledgerUpdate r payload signature now f s)
      | none =>
        processPhase r payload (computeIsSucceed payload) now f
          (ledgerInsert r payload signature now f s)

/-- `WebhooksService.handlePaynetWebhook` (lines 63–214).  The returned
store is the state after the call; the `Except` is what the caller sees
(`.error` = the method threw). -/
def handlePaynetWebhook (payload : Payload) (signature timestamp : String)
    (now : Nat) (f : Faults) (s : Store) : Store × Except IngestError Unit :=
  if signature != "" && !(verifyWebhookSignature payload signature timestamp) then
    (s, .error .invalidSignature)
  else ingestBody payload signature now f s

/-- `payment-reconciliation.service.ts` line 177: the backoff schedule
in milliseconds (30s, 2m, 5m, 10m, 30m), indexed by `retry_count`. -/
def retryDelays : List Nat :=
  [30000, 120000, 300000, 600000, 1800000]

/-- The query bound `lt('retry_count', 5)` / `gte('retry_count', 5)`. -/
def maxRetries : Nat := 5

/-- The escalation suppression window: one hour in milliseconds
(`payment-reconciliation.service.ts` line 348). -/
def suppressionWindowMs : Nat := 3600000

/-- `nextRetryTime` of `retryFailedWebhooks` (lines 207–213):
`(last_retry_at ?? received_at) + retryDelays[retry_count]`. -/
def nextEligibleTime (w : WebhookRow) : Nat :=
  (w.last_retry_at.getD w.received_at) + retryDelays.getD w.retry_count 0

/-- One iteration of the `retryFailedWebhooks` loop (lines 205–257) for
the fetched row `w` against the current store: skip if the backoff
window has not elapsed, skip if the payment is missing, otherwise
re-invoke `handlePaynetWebhook` with the stored payload (exceptions are
caught, so only the resulting store survives). -/
def retryStep (now : Nat) (f : Faults) (s : Store) (w : WebhookRow) : Store :=
  if now < nextEligibleTime w then s
  else
    match s.payments.find? (fun p => p.id == w.reference_no) with
    | none => s
    | some _ =>
      (handlePaynetWebhook w.webhook_payload (w.signature.getD "")
        (toString w.received_at) now f s).1

/-- `PaymentReconciliationService.retryFailedWebhooks` (lines 167–265):
fetch unprocessed rows with `retry_count < 5` (batch of 20) and run the
retry loop over them. -/
def retryFailedWebhooks (now : Nat) (f : Faults) (s : Store) : Store :=
  let batch := (s.webhook_storage.filter
    (fun w => w.processed_at.isNone && w.retry_count < maxRetries)).take 20
  batch.foldl (retryStep now f) s

/-- `[...new Set(...)]`: first-occurrence deduplication of the admin ids. -/
def dedup (l : List String) : List String :=
  l.foldl (fun acc x => if acc.contains x then acc else acc ++ [x]) []

/-- The active admin user ids queried at the start of
`sendAdminAlertsForFailedWebhooks` (lines 302–317). -/
def activeAdminIds (s : Store) : List String :=
  dedup ((s.admin_permissions.filter (fun p => p.is_active)).map (fun p => p.user_id))

/-- The critical audit record inserted by
`sendAdminAlertsForFailedWebhooks` (lines 357–375). -/
def mkEscalationAlert (w : WebhookRow) (payment : Payment) (now : Nat) : AuditLog :=
  { event_type := "webhook_max_retry_exceeded",
    event_category := "payment",
    event_action := "alert",
    event_severity := "critical",
    user_id := some payment.payer_id,
    resource_type := "payment",
    resource_id := w.reference_no,
    created_at := now }

/-- One iteration of the `sendAdminAlertsForFailedWebhooks` loop
(lines 326–409): skip if the payment is missing, skip if an escalation
audit record for this reference exists within the last hour, otherwise
insert one critical audit record and notify every admin. -/
def alertStep (now : Nat) (admins : List String) (s : Store) (w : WebhookRow) : Store :=
  match s.payments.find? (fun p => p.id == w.reference_no) with
  | none => s
  | some payment =>
    match s.audit_logs.find? (fun a =>
        a.event_type == "webhook_max_retry_exceeded" &&
        a.resource_id == w.reference_no &&
        now - suppressionWindowMs ≤ a.created_at) with
    | some _ => s
    | none =>
      let s1 : Store := { s with audit_logs := s.audit_logs ++
        [mkEscalationAlert w payment now] }
      if admins.isEmpty then s1
      else
        let adminNotifs := admins.map
          (fun a => { user_id := a,
                      message_key := "webhook_processing_failed_requires_attention",
                      type := "critical",
                      is_read := false : UserNotification })
        { s1 with notifications := s1.notifications ++ adminNotifs }

/-- `PaymentReconciliationService.sendAdminAlertsForFailedWebhooks`
(lines 272–420): fetch unprocessed rows with `retry_count >= 5` (batch
of 20) and run the escalation loop over them. -/
def sendAdminAlertsForFailedWebhooks (now : Nat) (s : Store) : Store :=
  let batch := (s.webhook_storage.filter
    (fun w => w.processed_at.isNone && maxRetries ≤ w.retry_count)).take 20
  batch.foldl (alertStep now (activeAdminIds s)) s

/-! Concrete fixtures used to evaluate the model on closed inputs. -/

/-- A pending payment with id `"ref-1"`. -/
def exPaymentPending : Payment :=
  { id := "ref-1", payer_id := "u1", receiver_id := some "u2", device_id := "d1",
    payment_status := .pending, escrow_status := .pending,
    provider_payment_id := none, provider_transaction_id := none,
    authorization_code := none, completed_at := none, failed_at := none,
    failure_reason := none, payment_gateway_fee := 10, total_amount := 4750,
    reward_amount := 4000, service_fee := 500, cargo_fee := 250,
    net_payout := 4000, updated_at := none }

/-- The same payment already in the terminal `completed` status. -/
def exPaymentCompleted : Payment :=
  { exPaymentPending with
    payment_status := .completed, escrow_status := .held,
    provider_payment_id := some "ORD1", provider_transaction_id := some "ref-1",
    authorization_code := some "AUTH1", completed_at := some 1000,
    updated_at := some 1000 }

/-- The owner device of the example payment. -/
def exDevice : Device :=
  { id := "d1", serialNumber := "SN1", model := "iPhone", device_role := "owner",
    status := "payment_pending", updated_at := none }

/-- The escrow record created by the first successful completion of
`"ref-1"`. -/
def exEscrow : EscrowRecord :=
  { payment_id := "ref-1", device_id := "d1", holder_user_id := "u1",
    beneficiary_user_id := some "u2", total_amount := 4750, reward_amount := 4000,
    service_fee := 500, gateway_fee := 10, cargo_fee := 250, net_payout := 4000,
    status := .held, escrow_type := "standard", auto_release_days := 30,
    currency := "TRY", held_at := 1000 }

/-- A successful-payment webhook payload for `"ref-1"`. -/
def exPayloadOk : Payload :=
  { reference_no := some "ref-1", is_succeed := some (.jbool true),
    amount := some 4750, authorization_code := some "AUTH1",
    order_id := some "ORD1", xact_date := some 1000, comission := some 10,
    error_message := none }

/-- A failed-payment webhook payload for `"ref-2"`. -/
def exPayloadFail : Payload :=
  { reference_no := some "ref-2", is_succeed := some (.jbool false),
    amount := none, authorization_code := none, order_id := none,
    xact_date := none, comission := none, error_message := none }

/-- An unprocessed idempotency-ledger row for `"ref-1"`. -/
def exRowUnprocessed : WebhookRow :=
  { payment_id := "ref-1", reference_no := "ref-1", webhook_payload := exPayloadOk,
    is_succeed := true, received_at := 1000, signature := none,
    provider := "paynet", processed_at := none, retry_count := 0,
    last_retry_at := none, error_message := none, updated_at := none }

/-- The same ledger row once `processed_at` has been stamped. -/
def exRowProcessed : WebhookRow :=
  { exRowUnprocessed with processed_at := some 1000, updated_at := some 1000 }

/-- A store about to receive its first notification for `"ref-1"`. -/
def exStoreFresh : Store :=
  { webhook_storage := [], payments := [exPaymentPending], escrow_accounts := [],
    devices := [exDevice], audit_logs := [], notifications := [],
    admin_permissions := [] }

/-- A store whose payment is already terminal (`completed`), with its
escrow record in place, but whose ledger row was never stamped
`processed_at` (e.g. the stamp update was lost). -/
def exStoreTerminalUnstamped : Store :=
  { webhook_storage := [exRowUnprocessed], payments := [exPaymentCompleted],
    escrow_accounts := [exEscrow], devices := [exDevice], audit_logs := [],
    notifications := [], admin_permissions := [] }

/-- A store with no payment row at all. -/
def exStoreNoPayment : Store :=
  { webhook_storage := [], payments := [], escrow_accounts := [], devices := [],
    audit_logs := [], notifications := [], admin_permissions := [] }

/-- A ledger row for `"ref-1"` that has already failed twice. -/
def exRowRetried : WebhookRow :=
  { exRowUnprocessed with
    retry_count := 2, last_retry_at := some 2000,
    error_message := some "payment update failed" }

/-- A store in which the ledger row for `"ref-1"` carries
`retry_count = 2` and the payment is still pending. -/
def exStoreRetried : Store :=
  { exStoreFresh with webhook_storage := [exRowRetried] }

/-- A ledger row for `"ref-1"` that has exhausted the retry budget. -/
def exRowExhausted : WebhookRow :=
  { exRowUnprocessed with
    retry_count := 5, last_retry_at := some 2000,
    error_message := some "payment update failed" }

/-- A store with one retry-exhausted ledger row, its pending payment and
one active admin. -/
def exStoreExhausted : Store :=
  { exStoreFresh with
    webhook_storage := [exRowExhausted],
    admin_permissions := [{ user_id := "admin1", is_active := true }] }

/-- A store whose payment is terminal and whose ledger row carries the
`processed_at` stamp. -/
def exStoreTerminalStamped : Store :=
  { exStoreTerminalUnstamped with webhook_storage := [exRowProcessed] }

/-- A store with a pending payment and a stamped ledger row. -/
def exStoreStamped : Store :=
  { exStoreFresh with webhook_storage := [exRowProcessed] }

/-- A store with a pending payment and an unprocessed ledger row. -/
def exStorePendingUnstamped : Store :=
  { exStoreFresh with webhook_storage := [exRowUnprocessed] }

/-- A resend of the `"ref-1"` notification, now reporting failure. -/
def exPayloadResend : Payload :=
  { exPayloadOk with is_succeed := some (.jstr "false"), order_id := some "ORD2" }

/-- A failed-payment payload addressed to `"ref-1"`. -/
def exPayloadFailRef1 : Payload :=
  { exPayloadFail with reference_no := some "ref-1" }

/-- A transient fault on the payments-table update only. -/
def paymentUpdateFault : Faults :=
  { noFaults with paymentUpdate := true }

/-- A transient fault on the idempotency-ledger write only. -/
def ledgerWriteFault : Faults :=
  { noFaults with ledgerWrite := true }

/-- Escalation audit records for one reference number. -/
def alertCount (s : Store) (ref : String) : Nat :=
  (s.audit_logs.filter (fun a =>
    a.event_type == "webhook_max_retry_exceeded" && a.resource_id == ref)).length

/-- `escrow_accounts` rows for one payment id. -/
def escrowCount (s : Store) (paymentId : String) : Nat :=
  (s.escrow_accounts.filter (fun e => e.payment_id == paymentId)).length

/-! General lemmas about the embedding. -/

theorem updateWhere_eq_self (p : α → Bool) (f : α → α) :
    ∀ l : List α, (∀ x ∈ l, p x = false) → updateWhere p f l = l := by
  intro l
  induction l with
  | nil => intro _; rfl
  | cons a t ih =>
    intro h
    have ha : p a = false := h a (by simp)
    have ht : updateWhere p f t = t := ih (fun x hx => h x (by simp [hx]))
    simp only [updateWhere, List.map_cons, ha, Bool.false_eq_true, if_false]
    simp only [updateWhere] at ht
    rw [ht]

theorem find?_updateWhere (p : α → Bool) (f : α → α)
    (hf : ∀ x, p (f x) = p x) :
    ∀ l : List α, (updateWhere p f l).find? p = (l.find? p).map f := by
  intro l
  induction l with
  | nil => rfl
  | cons a t ih =>
    by_cases ha : p a = true
    · have hfa : p (f a) = true := by rw [hf]; exact ha
      simp only [updateWhere, List.map_cons, ha, if_true,
        List.find?_cons_of_pos _ hfa, List.find?_cons_of_pos _ ha, Option.map_some']
    · have ha' : p a = false := by simpa using ha
      have hfa : ¬ p (f a) = true := by rw [hf]; exact ha
      simp only [updateWhere, List.map_cons, ha', Bool.false_eq_true, if_false,
        List.find?_cons_of_neg _ ha, List.find?_cons_of_neg _ (by simpa using hfa)]
      simp only [updateWhere] at ih
      exact ih

/-- The signature gate never fires: `verifyWebhookSignature` is `true`. -/
theorem handle_eq_body (payload : Payload) (sig ts : String) (now : Nat)
    (f : Faults) (s : Store) :
    handlePaynetWebhook payload sig ts now f s = ingestBody payload sig now f s := by
  simp [handlePaynetWebhook, verifyWebhookSignature]

/-- Ingestion of a reference with a stamped ledger row is the identity. -/
theorem ingest_processed_noop (payload : Payload) (sig ts : String) (now : Nat)
    (f : Faults) (s : Store) (r : String) (w : WebhookRow)
    (href : payload.reference_no = some r) (hne : r ≠ "")
    (hw : s.webhook_storage.find? (fun x => x.reference_no == r) = some w)
    (hproc : w.processed_at.isSome) :
    handlePaynetWebhook payload sig ts now f s = (s, .ok ()) := by
  rw [handle_eq_body]
  simp [ingestBody, href, hne, hw, hproc]

/-- Ingestion of a fresh reference reduces to processing over the
inserted ledger row. -/
theorem handle_fresh (payload : Payload) (sig ts : String) (now : Nat)
    (f : Faults) (s : Store) (r : String)
    (href : payload.reference_no = some r) (hne : r ≠ "")
    (hwnone : s.webhook_storage.find? (fun x => x.reference_no == r) = none) :
    handlePaynetWebhook payload sig ts now f s =
      processPhase r payload (computeIsSucceed payload) now f
        (ledgerInsert r payload sig now f s) := by
  rw [handle_eq_body]
  simp [ingestBody, href, hne, hwnone]

/-- Ingestion over an existing unprocessed ledger row reduces to
processing over the overwritten row. -/
theorem handle_existing (payload : Payload) (sig ts : String) (now : Nat)
    (f : Faults) (s : Store) (r : String) (w : WebhookRow)
    (href : payload.reference_no = some r) (hne : r ≠ "")
    (hw : s.webhook_storage.find? (fun x => x.reference_no == r) = some w)
    (hunproc : w.processed_at = none) :
    handlePaynetWebhook payload sig ts now f s =
      processPhase r payload (computeIsSucceed payload) now f
        (ledgerUpdate r payload sig now f s) := by
  rw [handle_eq_body]
  simp [ingestBody, href, hne, hw, hunproc]

/-- Processing with no matching payment only logs and returns. -/
theorem processPhase_no_payment (r : String) (payload : Payload) (b : Bool)
    (now : Nat) (f : Faults) (s : Store)
    (hp : s.payments.find? (fun p => p.id == r) = none) :
    processPhase r payload b now f s = (s, .ok ()) := by
  simp [processPhase, hp]

/-- `processPhase` only ever reports success or a processing failure. -/
theorem processPhase_ne_invalidSignature (r : String) (payload : Payload)
    (b : Bool) (now : Nat) (f : Faults) (s : Store) :
    (processPhase r payload b now f s).2 ≠ .error .invalidSignature := by
  unfold processPhase
  split
  · simp
  · split
    · simp
    · simp

/-- The body after the signature gate never reports `invalidSignature`. -/
theorem ingestBody_ne_invalidSignature (payload : Payload) (sig : String)
    (now : Nat) (f : Faults) (s : Store) :
    (ingestBody payload sig now f s).2 ≠ .error .invalidSignature := by
  unfold ingestBody
  split
  · simp
  · split
    · simp
    · split
      · split
        · simp
        · apply processPhase_ne_invalidSignature
      · apply processPhase_ne_invalidSignature

/-- The scheduler skips a row whose backoff window has not elapsed. -/
theorem retryStep_skip (now : Nat) (f : Faults) (s : Store) (w : WebhookRow)
    (h : now < nextEligibleTime w) :
    retryStep now f s w = s := by
  simp [retryStep, h]

/-- The scheduler skips a row whose payment is missing, without any
write. -/
theorem retryStep_no_payment (now : Nat) (f : Faults) (s : Store) (w : WebhookRow)
    (hp : s.payments.find? (fun p => p.id == w.reference_no) = none) :
    retryStep now f s w = s := by
  unfold retryStep
  split
  · rfl
  · rw [hp]

/-- The escalation pass skips a row when an in-window alert exists. -/
theorem alertStep_suppressed (now : Nat) (admins : List String) (s : Store)
    (w : WebhookRow) (a : AuditLog)
    (ha : s.audit_logs.find? (fun a => a.event_type == "webhook_max_retry_exceeded" &&
      a.resource_id == w.reference_no && now - suppressionWindowMs ≤ a.created_at) = some a) :
    alertStep now admins s w = s := by
  unfold alertStep
  split
  · rfl
  · rw [ha]

/-- With no in-window alert and the payment present, the escalation pass
appends exactly one audit record for the row (and, when admins exist,
their notifications), touching no other table. -/
theorem alertStep_fresh (now : Nat) (admins : List String) (s : Store)
    (w : WebhookRow) (p : Payment)
    (hp : s.payments.find? (fun q => q.id == w.reference_no) = some p)
    (ha : s.audit_logs.find? (fun a => a.event_type == "webhook_max_retry_exceeded" &&
      a.resource_id == w.reference_no && now - suppressionWindowMs ≤ a.created_at) = none) :
    (alertStep now admins s w).audit_logs = s.audit_logs ++ [mkEscalationAlert w p now] ∧
    (alertStep now admins s w).webhook_storage = s.webhook_storage ∧
    (alertStep now admins s w).payments = s.payments := by
  unfold alertStep
  rw [hp, ha]
  by_cases hA : admins.isEmpty
  · simp [hA]
  · simp [hA]

/-- On a single-row store the escalation pass is one `alertStep`. -/
theorem sendAlerts_single (now : Nat) (s : Store) (w : WebhookRow)
    (hw : s.webhook_storage = [w])
    (hunproc : w.processed_at = none)
    (hretry : maxRetries ≤ w.retry_count) :
    sendAdminAlertsForFailedWebhooks now s = alertStep now (activeAdminIds s) s w := by
  unfold sendAdminAlertsForFailedWebhooks
  rw [hw]
  simp [hunproc, hretry]

/-- A failing payments-table update makes the success transition throw
at step 1, before any write. -/
theorem processSuccessful_fault (payment : Payment) (wp : Payload) (now : Nat)
    (f : Faults) (s : Store) (hpu : f.paymentUpdate = true) :
    processSuccessfulPayment payment wp now f s = (s, .error "payment update failed") := by
  unfold processSuccessfulPayment
  rw [hpu]
  rfl

/-- A failing payments-table update makes the failure transition throw
at step 1, before any write. -/
theorem processFailed_fault (payment : Payment) (wp : Payload) (now : Nat)
    (f : Faults) (s : Store) (hpu : f.paymentUpdate = true) :
    processFailedPayment payment wp now f s = (s, .error "payment update failed") := by
  unfold processFailedPayment
  rw [hpu]
  rfl

/-- When its three throwing writes succeed, the success transition
returns success. -/
theorem processSuccessful_ok (payment : Payment) (wp : Payload) (now : Nat)
    (f : Faults) (s : Store) (hpu : f.paymentUpdate = false)
    (hei : f.escrowInsert = false) (hdu : f.deviceUpdate = false) :
    (processSuccessfulPayment payment wp now f s).2 = .ok () := by
  unfold processSuccessfulPayment
  rw [hpu, hei, hdu]
  simp only [Bool.false_eq_true, if_false]

/-- The success transition applies `completedUpdate` to the matching
payments rows. -/
theorem processSuccessful_payments (payment : Payment) (wp : Payload) (now : Nat)
    (f : Faults) (s : Store) (hpu : f.paymentUpdate = false)
    (hei : f.escrowInsert = false) (hdu : f.deviceUpdate = false) :
    (processSuccessfulPayment payment wp now f s).1.payments
      = updateWhere (fun q => q.id == payment.id)
          (completedUpdate wp now payment) s.payments := by
  unfold processSuccessfulPayment
  rw [hpu, hei, hdu]
  simp only [Bool.false_eq_true, if_false]
  repeat' split
  all_goals rfl

/-- The success transition appends exactly one escrow record. -/
theorem processSuccessful_escrow (payment : Payment) (wp : Payload) (now : Nat)
    (f : Faults) (s : Store) (hpu : f.paymentUpdate = false)
    (hei : f.escrowInsert = false) (hdu : f.deviceUpdate = false) :
    (processSuccessfulPayment payment wp now f s).1.escrow_accounts
      = s.escrow_accounts ++ [mkEscrowRecord payment now] := by
  unfold processSuccessfulPayment
  rw [hpu, hei, hdu]
  simp only [Bool.false_eq_true, if_false]
  repeat' split
  all_goals rfl

/-- The success transition never writes the idempotency ledger. -/
theorem processSuccessful_storage (payment : Payment) (wp : Payload) (now : Nat)
    (f : Faults) (s : Store) (hpu : f.paymentUpdate = false)
    (hei : f.escrowInsert = false) (hdu : f.deviceUpdate = false) :
    (processSuccessfulPayment payment wp now f s).1.webhook_storage
      = s.webhook_storage := by
  unfold processSuccessfulPayment
  rw [hpu, hei, hdu]
  simp only [Bool.false_eq_true, if_false]
  repeat' split
  all_goals rfl

/-- When the payments-table update succeeds, the failure transition
returns success. -/
theorem processFailed_ok (payment : Payment) (wp : Payload) (now : Nat)
    (f : Faults) (s : Store) (hpu : f.paymentUpdate = false) :
    (processFailedPayment payment wp now f s).2 = .ok () := by
  unfold processFailedPayment
  rw [hpu]
  simp only [Bool.false_eq_true, if_false]

/-- The failure transition applies `failedUpdate` to the matching
payments rows. -/
theorem processFailed_payments (payment : Payment) (wp : Payload) (now : Nat)
    (f : Faults) (s : Store) (hpu : f.paymentUpdate = false) :
    (processFailedPayment payment wp now f s).1.payments
      = updateWhere (fun q => q.id == payment.id) (failedUpdate wp now) s.payments := by
  unfold processFailedPayment
  rw [hpu]
  simp only [Bool.false_eq_true, if_false]
  repeat' split
  all_goals rfl

/-- The failure transition never writes the idempotency ledger. -/
theorem processFailed_storage (payment : Payment) (wp : Payload) (now : Nat)
    (f : Faults) (s : Store) (hpu : f.paymentUpdate = false) :
    (processFailedPayment payment wp now f s).1.webhook_storage
      = s.webhook_storage := by
  unfold processFailedPayment
  rw [hpu]
  simp only [Bool.false_eq_true, if_false]
  repeat' split
  all_goals rfl

/-! Claim C1. -/

/-- C1 (counterexample): a Payment already in the terminal `completed`
status, with its single escrow record in place, receives a success
notification whose ledger row lacks the `processed_at` stamp; the
processor performs no terminal-status check, so the call succeeds and a
second `escrow_accounts` row is created for the same payment — the
claimed no-op and at-most-one-escrow invariant fail. -/
theorem c1_counterexample :
    exPaymentCompleted.payment_status = PaymentStatus.completed ∧
    exStoreTerminalUnstamped.payments = [exPaymentCompleted] ∧
    escrowCount exStoreTerminalUnstamped "ref-1" = 1 ∧
    (handlePaynetWebhook exPayloadOk "" "" 5000 noFaults exStoreTerminalUnstamped).2
      = .ok () ∧
    escrowCount (handlePaynetWebhook exPayloadOk "" "" 5000 noFaults
      exStoreTerminalUnstamped).1 "ref-1" = 2 := by
  decide

/-- C1 (amended): applying a notification to a Payment in a terminal
status is a no-op — the whole store, Payment row and escrow rows
included, is unchanged and no second EscrowRecord is created — provided
the ledger row for its reference number carries the `processed_at`
stamp; the terminal guarantee comes from the ledger stamp alone, not
from any status check in the processor. -/
theorem c1_terminal_idempotence (payload : Payload) (sig ts : String)
    (now : Nat) (f : Faults) (s : Store) (r : String) (w : WebhookRow) (p : Payment)
    (href : payload.reference_no = some r) (hne : r ≠ "")
    (_hp : s.payments.find? (fun q => q.id == r) = some p)
    (_hterm : p.payment_status = .completed ∨ p.payment_status = .failed)
    (hw : s.webhook_storage.find? (fun x => x.reference_no == r) = some w)
    (hproc : w.processed_at.isSome) :
    handlePaynetWebhook payload sig ts now f s = (s, .ok ()) :=
  ingest_processed_noop payload sig ts now f s r w href hne hw hproc

/-- C1 witness: the amended theorem applied to the terminal store whose
ledger row is stamped. -/
theorem c1_witness :
    handlePaynetWebhook exPayloadOk "sig" "ts" 5000 noFaults exStoreTerminalStamped
      = (exStoreTerminalStamped, .ok ()) :=
  c1_terminal_idempotence exPayloadOk "sig" "ts" 5000 noFaults exStoreTerminalStamped
    "ref-1" exRowProcessed exPaymentCompleted (by decide) (by decide) (by decide)
    (Or.inl (by decide)) (by decide) (by decide)

/-! Claim C2. -/

/-- C2: once a Notification row is `processed_at`-stamped, a further
ingest call for the same reference returns success and the store —
ledger, payments, escrow, devices, audit, notifications — is exactly
unchanged; consequently (second conjunct, on the concrete `"ref-1"`
scenario) ingesting the same payload twice yields exactly one
`completed` transition and one escrow record. -/
theorem c2_idempotent_ingest (payload : Payload) (sig ts : String)
    (now : Nat) (f : Faults) (s : Store) (r : String) (w : WebhookRow)
    (href : payload.reference_no = some r) (hne : r ≠ "")
    (hw : s.webhook_storage.find? (fun x => x.reference_no == r) = some w)
    (hproc : w.processed_at.isSome) :
    handlePaynetWebhook payload sig ts now f s = (s, .ok ()) ∧
    (let s1 := (handlePaynetWebhook exPayloadOk "" "" 2000 noFaults exStoreFresh).1
     escrowCount s1 "ref-1" = 1 ∧
     s1.payments.map (fun q => q.payment_status) = [.completed] ∧
     handlePaynetWebhook exPayloadOk "" "" 3000 noFaults s1 = (s1, .ok ())) :=
  ⟨ingest_processed_noop payload sig ts now f s r w href hne hw hproc, by decide⟩

/-- C2 witness: the theorem applied to a stamped ledger row over a
pending payment. -/
theorem c2_witness :
    handlePaynetWebhook exPayloadOk "x" "y" 9000 noFaults exStoreStamped
      = (exStoreStamped, .ok ()) :=
  (c2_idempotent_ingest exPayloadOk "x" "y" 9000 noFaults exStoreStamped
    "ref-1" exRowProcessed (by decide) (by decide) (by decide) (by decide)).1

/-! Claim C3. -/

/-- C3 (counterexample): payload `{reference_no:"ref-2", is_succeed:false}`
with no matching Payment row — after ingestion the Notification row has
`processed_at = null` and `error_message = null` (nothing records
"payment not found") and the call returns success, contradicting the
claim that the row is marked processed with an error note. -/
theorem c3_counterexample :
    (handlePaynetWebhook exPayloadFail "" "" 5000 noFaults exStoreNoPayment).1.webhook_storage.map
      (fun w => (w.reference_no, w.processed_at, w.error_message))
      = [("ref-2", none, none)] ∧
    (handlePaynetWebhook exPayloadFail "" "" 5000 noFaults exStoreNoPayment).2 = .ok () := by
  decide

/-- C3 (amended): a notification whose `reference_no` matches no Payment
row is stored but left unmarked: ingestion returns success with the
fresh ledger row still `processed_at = null` and `error_message = null`,
and a reconciliation retry of any row with no matching payment leaves
the store entirely unchanged (no `processed_at`, no error note, no
`retry_count` change) — so no escalation ever triggers for it, but the
row also remains eligible for re-examination forever. -/
theorem c3_payment_not_found (payload : Payload) (sig ts : String)
    (now : Nat) (s : Store) (r : String)
    (href : payload.reference_no = some r) (hne : r ≠ "")
    (hwnone : s.webhook_storage.find? (fun x => x.reference_no == r) = none)
    (hpnone : s.payments.find? (fun q => q.id == r) = none)
    (nowr : Nat) (f2 : Faults) (w : WebhookRow) (s2 : Store)
    (hw2 : s2.payments.find? (fun q => q.id == w.reference_no) = none) :
    handlePaynetWebhook payload sig ts now noFaults s =
      ({ s with webhook_storage := s.webhook_storage ++
        [freshLedgerRow r payload sig now] }, .ok ()) ∧
    (freshLedgerRow r payload sig now).processed_at = none ∧
    (freshLedgerRow r payload sig now).error_message = none ∧
    retryStep nowr f2 s2 w = s2 := by
  refine ⟨?_, rfl, rfl, retryStep_no_payment nowr f2 s2 w hw2⟩
  rw [handle_fresh payload sig ts now noFaults s r href hne hwnone]
  have hins : ledgerInsert r payload sig now noFaults s =
      { s with webhook_storage := s.webhook_storage ++ [freshLedgerRow r payload sig now] } := by
    simp [ledgerInsert, noFaults]
  rw [hins]
  exact processPhase_no_payment r payload (computeIsSucceed payload) now noFaults _ hpnone

/-- C3 witness: the amended theorem applied to the `"ref-2"` scenario. -/
theorem c3_witness :
    handlePaynetWebhook exPayloadFail "" "" 5000 noFaults exStoreNoPayment =
      ({ exStoreNoPayment with webhook_storage := exStoreNoPayment.webhook_storage ++
        [freshLedgerRow "ref-2" exPayloadFail "" 5000] }, .ok ()) :=
  (c3_payment_not_found exPayloadFail "" "" 5000 exStoreNoPayment "ref-2"
    (by decide) (by decide) (by decide) (by decide)
    0 noFaults exRowUnprocessed exStoreNoPayment (by decide)).1

/-! Claim C4. -/

/-- C4: evaluation at the failing input — a ledger row for `"ref-1"`
with `retry_count = 2`, eligible for retry, whose re-invoked processing
fails again (transient payments-table failure).  The claim says the
stored `retry_count` becomes `3`; the code's retry path re-enters
`handlePaynetWebhook`, whose upsert first resets `retry_count` to `0`,
so the failed attempt stores `retry_count = 1`. -/
theorem c4_retry_count_not_incremented :
    exStoreRetried.webhook_storage.map (fun w => w.retry_count) = [2] ∧
    (retryFailedWebhooks 999999999 paymentUpdateFault exStoreRetried).webhook_storage.map
      (fun w => (w.retry_count, w.last_retry_at))
      = [(1, some 999999999)] := by
  decide

/-- When processing fails over a single-row ledger, the retry
bookkeeping stores the read-back `retry_count` plus one, `last_retry_at`
and the error note, and rethrows. -/
theorem processPhase_fail_single (r : String) (payload : Payload) (b : Bool)
    (now : Nat) (f : Faults) (st : Store) (v : WebhookRow) (p : Payment)
    (hst : st.webhook_storage = [v])
    (hv : v.reference_no = r)
    (hp : st.payments.find? (fun q => q.id == r) = some p)
    (hfail : f.paymentUpdate = true) :
    (processPhase r payload b now f st).1.webhook_storage
      = [{ v with
           retry_count := v.retry_count + 1, last_retry_at := some now,
           error_message := some "payment update failed", updated_at := some now }] := by
  have hpredv : (v.reference_no == r) = true := by simp [hv]
  unfold processPhase
  rw [hp]
  cases b
  · simp only [Bool.false_eq_true, if_false,
      processFailed_fault p payload now f st hfail, hst, updateWhere, hpredv,
      List.find?_cons_of_pos, List.map_cons, List.map_nil, if_true,
      Option.map_some', Option.getD_some]
  · simp only [if_true,
      processSuccessful_fault p payload now f st hfail, hst, updateWhere, hpredv,
      List.find?_cons_of_pos, List.map_cons, List.map_nil,
      Option.map_some', Option.getD_some]

/-! Claim C5. -/

/-- C5: for an unprocessed ledger row whose `retryCount` has reached
`maxRetries` (5) and whose payment exists, the escalation pass creates
exactly one critical `webhook_max_retry_exceeded` audit record for its
reference (plus the admin notifications inside `alertStep`), and every
further pass whose time lies within the one-hour suppression window
after the first leaves the store unchanged — so exactly one escalation
audit record exists for the reference per window, no matter how many
times the pass runs. -/
theorem c5_escalation_once (s : Store) (w : WebhookRow) (p : Payment)
    (t1 : Nat) (ts : List Nat)
    (hw : s.webhook_storage = [w])
    (hunproc : w.processed_at = none)
    (hretry : maxRetries ≤ w.retry_count)
    (hp : s.payments.find? (fun q => q.id == w.reference_no) = some p)
    (hnoalert : alertCount s w.reference_no = 0)
    (hts : ∀ t ∈ ts, t ≤ t1 + suppressionWindowMs) :
    alertCount (ts.foldl (fun st t => sendAdminAlertsForFailedWebhooks t st)
      (sendAdminAlertsForFailedWebhooks t1 s)) w.reference_no = 1 ∧
    (mkEscalationAlert w p t1).event_type = "webhook_max_retry_exceeded" ∧
    (mkEscalationAlert w p t1).event_severity = "critical" := by
  refine ⟨?_, rfl, rfl⟩
  have hnomatch : ∀ a ∈ s.audit_logs,
      (a.event_type == "webhook_max_retry_exceeded" &&
        a.resource_id == w.reference_no) = false := by
    intro a ha
    have hnil : s.audit_logs.filter (fun a =>
        a.event_type == "webhook_max_retry_exceeded" &&
        a.resource_id == w.reference_no) = [] := by
      unfold alertCount at hnoalert
      exact List.length_eq_zero.mp hnoalert
    by_contra hcon
    have htrue : (a.event_type == "webhook_max_retry_exceeded" &&
        a.resource_id == w.reference_no) = true := by
      revert hcon
      cases (a.event_type == "webhook_max_retry_exceeded" &&
        a.resource_id == w.reference_no) <;> simp
    have : a ∈ s.audit_logs.filter (fun a =>
        a.event_type == "webhook_max_retry_exceeded" &&
        a.resource_id == w.reference_no) := List.mem_filter.mpr ⟨ha, htrue⟩
    rw [hnil] at this
    exact (List.not_mem_nil a) this
  have hfindnone : s.audit_logs.find? (fun a =>
      a.event_type == "webhook_max_retry_exceeded" &&
      a.resource_id == w.reference_no &&
      t1 - suppressionWindowMs ≤ a.created_at) = none := by
    rw [List.find?_eq_none]
    intro a ha
    have h := hnomatch a ha
    simp only [Bool.and_eq_false_iff] at h
    simp only [Bool.and_eq_true, not_and, Bool.and_eq_false_iff]
    intro hcon
    rcases h with h | h <;> simp [h] at hcon
  have h1 := sendAlerts_single t1 s w hw hunproc hretry
  have hfresh := alertStep_fresh t1 (activeAdminIds s) s w p hp hfindnone
  have haudit1 : (sendAdminAlertsForFailedWebhooks t1 s).audit_logs
      = s.audit_logs ++ [mkEscalationAlert w p t1] := by
    rw [h1]
    exact hfresh.1
  have hsto1 : (sendAdminAlertsForFailedWebhooks t1 s).webhook_storage = [w] := by
    rw [h1, hfresh.2.1, hw]
  have hpay1 : (sendAdminAlertsForFailedWebhooks t1 s).payments = s.payments := by
    rw [h1]
    exact hfresh.2.2
  have hcount1 : alertCount (sendAdminAlertsForFailedWebhooks t1 s) w.reference_no = 1 := by
    unfold alertCount at hnoalert ⊢
    rw [haudit1, List.filter_append, List.length_append, hnoalert]
    simp [mkEscalationAlert]
  have hsupp : ∀ t, t ≤ t1 + suppressionWindowMs → ∀ st : Store,
      st.webhook_storage = [w] → st.payments = s.payments →
      mkEscalationAlert w p t1 ∈ st.audit_logs →
      sendAdminAlertsForFailedWebhooks t st = st := by
    intro t ht st hst hpayst hmem
    rw [sendAlerts_single t st w hst hunproc hretry]
    have hpred : (fun a => a.event_type == "webhook_max_retry_exceeded" &&
        a.resource_id == w.reference_no &&
        decide (t - suppressionWindowMs ≤ a.created_at))
        (mkEscalationAlert w p t1) = true := by
      simp only [mkEscalationAlert, Bool.and_eq_true, beq_self_eq_true,
        decide_eq_true_eq, true_and, and_true]
      omega
    have hsome : (st.audit_logs.find? (fun a =>
        a.event_type == "webhook_max_retry_exceeded" &&
        a.resource_id == w.reference_no &&
        t - suppressionWindowMs ≤ a.created_at)).isSome := by
      rw [List.find?_isSome]
      exact ⟨mkEscalationAlert w p t1, hmem, hpred⟩
    obtain ⟨a, ha⟩ := Option.isSome_iff_exists.mp hsome
    have hfindst : st.payments.find? (fun q => q.id == w.reference_no) = some p := by
      rw [hpayst]
      exact hp
    exact alertStep_suppressed t (activeAdminIds st) st w a ha
  have hfold : ∀ (l : List Nat), (∀ t ∈ l, t ≤ t1 + suppressionWindowMs) →
      ∀ st : Store, st.webhook_storage = [w] → st.payments = s.payments →
      mkEscalationAlert w p t1 ∈ st.audit_logs →
      l.foldl (fun st t => sendAdminAlertsForFailedWebhooks t st) st = st := by
    intro l
    induction l with
    | nil =>
      intro _ st _ _ _
      rfl
    | cons t l ih =>
      intro hl st hst hpayst hmem
      rw [List.foldl_cons, hsupp t (hl t (by simp)) st hst hpayst hmem]
      exact ih (fun x hx => hl x (by simp [hx])) st hst hpayst hmem
  rw [hfold ts hts (sendAdminAlertsForFailedWebhooks t1 s) hsto1 hpay1
    (by rw [haudit1]; simp)]
  exact hcount1

/-- C5 witness: three passes — at 10000, 20000 and 3000000, all within
one hour of the first — over the retry-exhausted `"ref-1"` row yield
exactly one escalation audit record. -/
theorem c5_witness :
    alertCount ([20000, 3000000].foldl
      (fun st t => sendAdminAlertsForFailedWebhooks t st)
      (sendAdminAlertsForFailedWebhooks 10000 exStoreExhausted)) "ref-1" = 1 :=
  (c5_escalation_once exStoreExhausted exRowExhausted exPaymentPending 10000
    [20000, 3000000] (by decide) (by decide) (by decide) (by decide) (by decide)
    (by decide)).1

/-! Claim C6. -/

/-- C6: the backoff schedule (30s, 2m, 5m, 10m, 30m) is monotonically
non-decreasing; `maxRetries` equals its length (5); the scheduler never
re-invokes processing for a row before its
`nextEligibleTime = (lastRetryAt ?? receivedAt) + backoffSchedule[retryCount]`;
and when an eligible retry at time `now` fails again, the stored row's
`nextEligibleTime` is ≥ the previous one (it becomes
`now + backoffSchedule[retryCount]`, and `now` was already past the old
`nextEligibleTime`), so consecutive failures yield a non-decreasing
sequence of eligibility times. -/
theorem c6_backoff_monotonicity (s : Store) (w : WebhookRow) (p : Payment)
    (f : Faults) (now : Nat)
    (hw : s.webhook_storage = [w])
    (hunproc : w.processed_at = none)
    (hpayload : w.webhook_payload.reference_no = some w.reference_no)
    (hne : w.reference_no ≠ "")
    (hp : s.payments.find? (fun q => q.id == w.reference_no) = some p)
    (hfail : f.paymentUpdate = true)
    (helig : nextEligibleTime w ≤ now) :
    List.Chain' (· ≤ ·) retryDelays ∧
    retryDelays.length = maxRetries ∧
    (∀ (n : Nat) (g : Faults) (st : Store) (v : WebhookRow),
      n < nextEligibleTime v → retryStep n g st v = st) ∧
    (∃ w', (retryStep now f s w).webhook_storage = [w'] ∧
      nextEligibleTime w ≤ nextEligibleTime w') := by
  refine ⟨?_, by decide, fun n g st v h => retryStep_skip n g st v h, ?_⟩
  · norm_num [retryDelays, List.chain'_cons]
  have hstep : retryStep now f s w =
      (handlePaynetWebhook w.webhook_payload (w.signature.getD "")
        (toString w.received_at) now f s).1 := by
    unfold retryStep
    rw [if_neg (Nat.not_lt.mpr helig), hp]
  have hfw : s.webhook_storage.find?
      (fun x => x.reference_no == w.reference_no) = some w := by
    rw [hw]
    simp
  rw [hstep, handle_existing w.webhook_payload (w.signature.getD "")
    (toString w.received_at) now f s w.reference_no w hpayload hne hfw hunproc]
  have hLpay : (ledgerUpdate w.reference_no w.webhook_payload
      (w.signature.getD "") now f s).payments = s.payments := by
    unfold ledgerUpdate
    split <;> rfl
  have hp' : (ledgerUpdate w.reference_no w.webhook_payload
      (w.signature.getD "") now f s).payments.find?
      (fun q => q.id == w.reference_no) = some p := by
    rw [hLpay]
    exact hp
  by_cases hL : f.ledgerWrite = true
  · have hst : (ledgerUpdate w.reference_no w.webhook_payload
        (w.signature.getD "") now f s).webhook_storage = [w] := by
      simp [ledgerUpdate, hL, hw]
    exact ⟨_, processPhase_fail_single w.reference_no w.webhook_payload
        (computeIsSucceed w.webhook_payload) now f _ w p hst rfl hp' hfail,
      le_trans helig (Nat.le_add_right now _)⟩
  · have hst : (ledgerUpdate w.reference_no w.webhook_payload
        (w.signature.getD "") now f s).webhook_storage
        = [{ w with
             webhook_payload := w.webhook_payload,
             is_succeed := computeIsSucceed w.webhook_payload,
             received_at := now,
             signature := strOrNone (w.signature.getD ""),
             retry_count := 0 }] := by
      simp [ledgerUpdate, hL, hw, updateWhere]
    exact ⟨_, processPhase_fail_single w.reference_no w.webhook_payload
        (computeIsSucceed w.webhook_payload) now f _ _ p hst rfl hp' hfail,
      le_trans helig (Nat.le_add_right now _)⟩

/-- C6 witness: the skip-guard conjunct applied at a concrete
not-yet-eligible time (the row's `nextEligibleTime` is
`2000 + 300000 = 302000` and the pass runs at `100`). -/
theorem c6_witness :
    retryStep 100 noFaults exStoreFresh exRowRetried = exStoreFresh :=
  (c6_backoff_monotonicity exStoreRetried exRowRetried exPaymentPending
    paymentUpdateFault 999999999 (by decide) (by decide) (by decide) (by decide)
    (by decide) (by decide) (by decide)).2.2.1 100 noFaults exStoreFresh
    exRowRetried (by decide)

/-! Claim C7. -/

/-- C7: a new ingest call for a reference whose Notification row exists
and is unprocessed overwrites that row in place: the ledger keeps the
same number of rows (no second row), every row for this reference now
carries the new payload, the freshly computed succeeded flag, the new
`received_at` and `retry_count = 0`, and the processing phase consumes
the new payload over the overwritten ledger. -/
theorem c7_resend_overwrite (payload : Payload) (sig ts : String) (now : Nat)
    (f : Faults) (s : Store) (r : String) (w : WebhookRow)
    (href : payload.reference_no = some r) (hne : r ≠ "")
    (hw : s.webhook_storage.find? (fun x => x.reference_no == r) = some w)
    (hunproc : w.processed_at = none)
    (hnf : f.ledgerWrite = false) :
    (ledgerUpdate r payload sig now f s).webhook_storage.length
      = s.webhook_storage.length ∧
    (∀ x ∈ (ledgerUpdate r payload sig now f s).webhook_storage,
      x.reference_no = r →
      x.webhook_payload = payload ∧ x.is_succeed = computeIsSucceed payload ∧
      x.received_at = now ∧ x.retry_count = 0) ∧
    handlePaynetWebhook payload sig ts now f s =
      processPhase r payload (computeIsSucceed payload) now f
        (ledgerUpdate r payload sig now f s) := by
  refine ⟨?_, ?_, handle_existing payload sig ts now f s r w href hne hw hunproc⟩
  · unfold ledgerUpdate
    rw [hnf]
    simp [updateWhere]
  · intro x hx hxr
    unfold ledgerUpdate at hx
    rw [hnf] at hx
    simp only [Bool.false_eq_true, if_false, updateWhere, List.mem_map] at hx
    obtain ⟨y, hy, hxy⟩ := hx
    by_cases hpy : (y.reference_no == r) = true
    · rw [hpy] at hxy
      simp only [if_true] at hxy
      subst hxy
      exact ⟨rfl, rfl, rfl, rfl⟩
    · exfalso
      simp only [hpy] at hxy
      simp only [Bool.false_eq_true, if_false] at hxy
      subst hxy
      exact hpy (by simpa using hxr)

/-- C7 witness: the theorem applied to a resend carrying a different
`is_succeed` value over an unprocessed `"ref-1"` row. -/
theorem c7_witness :
    (ledgerUpdate "ref-1" exPayloadResend "s2" 7000 noFaults
      exStorePendingUnstamped).webhook_storage.length
      = exStorePendingUnstamped.webhook_storage.length :=
  (c7_resend_overwrite exPayloadResend "s2" "t2" 7000 noFaults
    exStorePendingUnstamped "ref-1" exRowUnprocessed (by decide) (by decide)
    (by decide) (by decide) (by decide)).1

/-! Claim C8. -/

/-- C8: `PaynetProvider.verifyWebhookSignature` returns `true` for every
input — the verification is a stub — and consequently the
`InvalidSignature` branch of ingestion is unreachable: no call to
`handlePaynetWebhook` ever reports `invalidSignature`, whatever the
payload, signature, timestamp, faults or store. -/
theorem c8_signature_stub (payload : Payload) (sig ts : String) (now : Nat)
    (f : Faults) (s : Store) :
    verifyWebhookSignature payload sig ts = true ∧
    (handlePaynetWebhook payload sig ts now f s).2 ≠ .error .invalidSignature := by
  refine ⟨rfl, ?_⟩
  rw [handle_eq_body]
  exact ingestBody_ne_invalidSignature payload sig now f s

/-! Claim C9. -/

/-- C9: a notification is classified as succeeded iff its `is_succeed`
field is the boolean `true` or the exact string `"true"`; every other
value (string `"false"`, other casings, numbers, an absent field) makes
the classification false, and such a payload routes through the
failed-payment transition: processing ends with `payment_status = failed`
for the matching payment and the call reports success, not an error. -/
theorem c9_is_succeed_classification (payload : Payload) (sig ts : String)
    (now : Nat) (s : Store) (r : String) (p : Payment)
    (href : payload.reference_no = some r) (hne : r ≠ "")
    (hfalse : computeIsSucceed payload = false)
    (hwnone : s.webhook_storage.find? (fun x => x.reference_no == r) = none)
    (hp : s.payments.find? (fun q => q.id == r) = some p) :
    (∀ q : Payload, computeIsSucceed q = true ↔
      (q.is_succeed = some (JVal.jbool true) ∨ q.is_succeed = some (JVal.jstr "true"))) ∧
    ((handlePaynetWebhook payload sig ts now noFaults s).1.payments.find?
      (fun q => q.id == r)).map (fun q => q.payment_status)
      = some PaymentStatus.failed ∧
    (handlePaynetWebhook payload sig ts now noFaults s).2 = .ok () := by
  have hiff : ∀ q : Payload, computeIsSucceed q = true ↔
      (q.is_succeed = some (JVal.jbool true) ∨ q.is_succeed = some (JVal.jstr "true")) := by
    intro q
    simp [computeIsSucceed]
  have hpid : p.id = r := by
    have h := List.find?_some hp
    simpa using h
  have hfind : (ledgerInsert r payload sig now noFaults s).payments.find?
      (fun q => q.id == r) = some p := hp
  refine ⟨hiff, ?_⟩
  rw [handle_fresh payload sig ts now noFaults s r href hne hwnone]
  rcases hpf : processFailedPayment p payload now noFaults
      (ledgerInsert r payload sig now noFaults s) with ⟨s2, e2⟩
  have hok := processFailed_ok p payload now noFaults
      (ledgerInsert r payload sig now noFaults s) rfl
  rw [hpf] at hok
  simp only at hok
  subst hok
  have hpay := processFailed_payments p payload now noFaults
      (ledgerInsert r payload sig now noFaults s) rfl
  rw [hpf] at hpay
  simp only at hpay
  simp only [processPhase, hfind, hfalse, Bool.false_eq_true, if_false, hpf]
  simp only [noFaults, Bool.false_eq_true, if_false]
  refine ⟨?_, trivial⟩
  have hins : (ledgerInsert r payload sig now noFaults s).payments = s.payments := rfl
  rw [hpay, hins]
  simp only [hpid]
  rw [find?_updateWhere (fun q => q.id == r) (failedUpdate payload now)
    (fun x => rfl) s.payments, hp]
  rfl

/-- C9 witness: the theorem applied to a failure payload for the
pending `"ref-1"` payment. -/
theorem c9_witness :
    ((handlePaynetWebhook exPayloadFailRef1 "" "" 4000 noFaults exStoreFresh).1.payments.find?
      (fun q => q.id == "ref-1")).map (fun q => q.payment_status)
      = some PaymentStatus.failed :=
  (c9_is_succeed_classification exPayloadFailRef1 "" "" 4000 exStoreFresh
    "ref-1" exPaymentPending (by decide) (by decide) (by decide) (by decide)
    (by decide)).2.1

/-! Claim C10. -/

/-- C10: a transient failure of the idempotency-ledger write during
ingestion neither aborts the call nor reaches the caller: with the
ledger write failing, ingestion still looks up the Payment and applies
the success transition — the call returns success, the payment completes
and one escrow record is appended — while `webhook_storage` keeps no row
(and hence no retry bookkeeping) for the notification.  The final
conjunct covers the failing in-place update of an existing unprocessed
row: the call still reports success to the caller. -/
theorem c10_ledger_failure_not_fatal (payload : Payload) (sig ts : String)
    (now : Nat) (s : Store) (r : String) (p : Payment)
    (href : payload.reference_no = some r) (hne : r ≠ "")
    (htrue : computeIsSucceed payload = true)
    (hwnone : s.webhook_storage.find? (fun x => x.reference_no == r) = none)
    (hp : s.payments.find? (fun q => q.id == r) = some p) :
    (handlePaynetWebhook payload sig ts now ledgerWriteFault s).2 = .ok () ∧
    (handlePaynetWebhook payload sig ts now ledgerWriteFault s).1.webhook_storage
      = s.webhook_storage ∧
    ((handlePaynetWebhook payload sig ts now ledgerWriteFault s).1.payments.find?
      (fun q => q.id == r)).map (fun q => q.payment_status)
      = some PaymentStatus.completed ∧
    (handlePaynetWebhook payload sig ts now ledgerWriteFault s).1.escrow_accounts
      = s.escrow_accounts ++ [mkEscrowRecord p now] ∧
    (∀ (s2 : Store) (w : WebhookRow) (p2 : Payment),
      s2.webhook_storage.find? (fun x => x.reference_no == r) = some w →
      w.processed_at = none →
      s2.payments.find? (fun q => q.id == r) = some p2 →
      (handlePaynetWebhook payload sig ts now ledgerWriteFault s2).2 = .ok ()) := by
  have hpid : p.id = r := by
    have h := List.find?_some hp
    simpa using h
  have hfind : (ledgerInsert r payload sig now ledgerWriteFault s).payments.find?
      (fun q => q.id == r) = some p := hp
  rw [handle_fresh payload sig ts now ledgerWriteFault s r href hne hwnone]
  rcases hps : processSuccessfulPayment p payload now ledgerWriteFault
      (ledgerInsert r payload sig now ledgerWriteFault s) with ⟨s2, e2⟩
  have hok := processSuccessful_ok p payload now ledgerWriteFault
      (ledgerInsert r payload sig now ledgerWriteFault s) rfl rfl rfl
  rw [hps] at hok
  simp only at hok
  subst hok
  have hpay := processSuccessful_payments p payload now ledgerWriteFault
      (ledgerInsert r payload sig now ledgerWriteFault s) rfl rfl rfl
  rw [hps] at hpay
  simp only at hpay
  have hesc := processSuccessful_escrow p payload now ledgerWriteFault
      (ledgerInsert r payload sig now ledgerWriteFault s) rfl rfl rfl
  rw [hps] at hesc
  simp only at hesc
  have hsto := processSuccessful_storage p payload now ledgerWriteFault
      (ledgerInsert r payload sig now ledgerWriteFault s) rfl rfl rfl
  rw [hps] at hsto
  simp only at hsto
  have hinsP : (ledgerInsert r payload sig now ledgerWriteFault s).payments
      = s.payments := rfl
  have hinsE : (ledgerInsert r payload sig now ledgerWriteFault s).escrow_accounts
      = s.escrow_accounts := rfl
  have hinsS : (ledgerInsert r payload sig now ledgerWriteFault s).webhook_storage
      = s.webhook_storage := rfl
  rw [hinsP] at hpay
  rw [hinsE] at hesc
  rw [hinsS] at hsto
  have hnone : ∀ x ∈ s.webhook_storage, (fun x => x.reference_no == r) x = false := by
    intro x hx
    have := List.find?_eq_none.mp hwnone x hx
    simpa using this
  have hself : updateWhere (fun x => x.reference_no == r)
      (fun x => { x with processed_at := some now, updated_at := some now })
      s.webhook_storage = s.webhook_storage :=
    updateWhere_eq_self _ _ s.webhook_storage hnone
  simp only [processPhase, hfind, htrue, if_true, hps]
  simp only [ledgerWriteFault, noFaults, Bool.false_eq_true, if_false]
  refine ⟨trivial, ?_, ?_, hesc, ?_⟩
  · rw [hsto]
    exact hself
  · rw [hpay]
    simp only [hpid]
    rw [find?_updateWhere (fun q => q.id == r) (completedUpdate payload now p)
      (fun x => rfl) s.payments, hp]
    rfl
  · intro s2 w p2 hw2 hun2 hp2
    show (handlePaynetWebhook payload sig ts now ledgerWriteFault s2).2 = Except.ok ()
    rw [handle_existing payload sig ts now ledgerWriteFault s2 r w href hne hw2 hun2]
    have hlu : ledgerUpdate r payload sig now ledgerWriteFault s2 = s2 := by
      simp [ledgerUpdate, ledgerWriteFault, noFaults]
    rw [hlu]
    rcases hps2 : processSuccessfulPayment p2 payload now ledgerWriteFault s2
      with ⟨s3, e3⟩
    have hok3 := processSuccessful_ok p2 payload now ledgerWriteFault s2 rfl rfl rfl
    rw [hps2] at hok3
    simp only at hok3
    subst hok3
    simp only [processPhase, hp2, htrue, if_true, hps2]

/-- C10 witness: the theorem applied to the success payload for the
pending `"ref-1"` payment with the ledger write failing. -/
theorem c10_witness :
    (handlePaynetWebhook exPayloadOk "" "" 2000 ledgerWriteFault exStoreFresh).1.webhook_storage
      = exStoreFresh.webhook_storage :=
  (c10_ledger_failure_not_fatal exPayloadOk "" "" 2000 exStoreFresh "ref-1"
    exPaymentPending (by decide) (by decide) (by decide) (by decide)
    (by decide)).2.1

end IFA
